import Mathlib

/-!
Shallow embedding of the stockInfo Express application (storage layer,
Financial Modeling Prep client, route handlers and schema setup), together
with theorems checking the natural-language specification against it.

Conventions used throughout:
* SQL rows are Lean structures; a table is a `List` of rows; the whole
  SQLite file is the `Db` structure.
* A JavaScript value that may be `undefined` is an `Option`; a nullable
  column value that may additionally be SQL `NULL` is an `Option` inside
  an `Option` in update payloads.
* Timestamps (`CURRENT_TIMESTAMP`, `new Date()`) are `Nat` parameters
  passed in as `now`; `AUTOINCREMENT` ids are `Nat` parameters `newId`.
* Thrown JavaScript errors are `Except String` / `FetchResult.thrown`.
-/

namespace StockInfo

/-- Test that `pat` occurs at the start of `s` (on character lists). -/
def charsStartWith : List Char → List Char → Bool
  | [], _ => true
  | _ :: _, [] => false
  | p :: ps, c :: cs => p == c && charsStartWith ps cs

/-- Test that `pat` occurs somewhere inside `s` (on character lists). -/
def charsIncl : List Char → List Char → Bool
  | [], pat => charsStartWith pat []
  | s@(_ :: cs), pat => charsStartWith pat s || charsIncl cs pat

/-- JS `String.prototype.includes`: `true` when `pat` occurs as a substring of `s`. -/
def jsIncludes (s pat : String) : Bool := charsIncl s.data pat.data

/-- JS truthiness of a string that may be `undefined`:
`undefined` and the empty string are falsy. -/
def jsTruthy : Option String → Bool
  | some s => s != ""
  | none => false

/-- JS truthiness of a number that may be `undefined`: `undefined` and `0` are falsy. -/
def jsTruthyNum : Option Int → Bool
  | some n => n != 0
  | none => false

/-- JS `String.prototype.toUpperCase` (character-wise upper casing, which
agrees with the JS function on the ASCII ticker symbols this app handles). -/
def jsToUpper (s : String) : String := ⟨s.data.map Char.toUpper⟩

/-- Models `bcrypt.genSalt(10)` + `bcrypt.hash` as a deterministic tagging
function.  The application never inspects a hash except through
`bcryptCompare`, so the only property the embedding relies on is that
`bcryptCompare pw (bcryptHash pw) = true`. -/
def bcryptHash (pw : String) : String := "bcrypt$" ++ pw

/-- Models `bcrypt.compare`. -/
def bcryptCompare (pw hash : String) : Bool := hash == bcryptHash pw

/-- One row of the `users` table (schema in database-setup.js). -/
structure UserRow where
  id : Nat
  username : String
  password : Option String
  email : String
  full_name : String
  role : String
  avatar : Option String
  address : Option String
  dark_mode : Nat
  created_at : Nat
  last_login : Option Nat
  google_id : Option String
deriving Repr, DecidableEq

/-- One row of the `user_watchlist` table; `UNIQUE(user_id, symbol)`. -/
structure WatchlistRow where
  id : Nat
  user_id : Nat
  symbol : String
  created_at : Nat
deriving Repr, DecidableEq

/-- One row of the `portfolio` table. -/
structure PortfolioRow where
  id : Nat
  user_id : Nat
  name : String
  description : Option String
  created_at : Nat
deriving Repr, DecidableEq

/-- One row of the `portfolio_positions` table. -/
structure PositionRow where
  id : Nat
  portfolio_id : Nat
  symbol : String
  shares : Int
  purchase_price : Int
  purchase_date : Nat
  notes : Option String
deriving Repr, DecidableEq

/-- One row of the `restricted_stocks` table; `symbol` is `UNIQUE`. -/
structure RestrictedRow where
  id : Nat
  symbol : String
  reason : Option String
  added_by : Nat
  added_at : Nat
deriving Repr, DecidableEq

/-- One row of the `featured_stocks` table. -/
structure FeaturedRow where
  id : Nat
  symbol : String
  title : String
  description : Option String
  start_date : Nat
  end_date : Option Nat
  added_by : Nat
deriving Repr, DecidableEq

/-- The SQLite database: the tables the verified claims touch. -/
structure Db where
  users : List UserRow
  user_watchlist : List WatchlistRow
  portfolio : List PortfolioRow
  portfolio_positions : List PositionRow
  restricted_stocks : List RestrictedRow
  featured_stocks : List FeaturedRow
deriving Repr, DecidableEq

/-- storage.js `getUser`: `SELECT * FROM users WHERE id = ?`. -/
def getUser (db : Db) (id : Nat) : Option UserRow :=
  db.users.find? (fun r => r.id == id)

/-- storage.js `getUserByUsername`. -/
def getUserByUsername (db : Db) (username : String) : Option UserRow :=
  db.users.find? (fun r => r.username == username)

/-- storage.js `getUserByEmail`. -/
def getUserByEmail (db : Db) (email : String) : Option UserRow :=
  db.users.find? (fun r => r.email == email)

/-- The `userData` argument of storage.js `createUser`. -/
structure NewUser where
  username : String
  password : Option String
  email : String
  full_name : String
  role : Option String
  avatar : Option String
  address : Option String
  dark_mode : Bool
deriving Repr, DecidableEq

/-- storage.js `createUser`: hashes a truthy password, inserts with the
source defaults (`role` falling back to `user`, `avatar` and `address`
falling back to null), then re-reads the new row by id. -/
def createUser (db : Db) (u : NewUser) (newId now : Nat) : Db × Option UserRow :=
  let passwordHash : Option String :=
    if jsTruthy u.password then some (bcryptHash (u.password.getD "")) else none
  let row : UserRow :=
    { id := newId
      username := u.username
      password := passwordHash
      email := u.email
      full_name := u.full_name
      role := if jsTruthy u.role then u.role.getD "" else "user"
      avatar := if jsTruthy u.avatar then u.avatar else none
      address := if jsTruthy u.address then u.address else none
      dark_mode := if u.dark_mode then 1 else 0
      created_at := now
      last_login := none
      google_id := none }
  let db2 : Db := { db with users := db.users ++ [row] }
  (db2, getUser db2 newId)

/-- The `userData` argument of storage.js `updateUser`.  A `none` field is an
`undefined` JS property (omitted from the payload); for the nullable columns
`some none` is an explicit JS `null`.  `role` and `last_login` can be present
on the JS object (the admin `PUT /api/admin/users/:id` route passes `role`,
and `POST /auth/login` passes `last_login`) but `updateUser` has no branch
for either of them. -/
structure UserUpdate where
  username : Option String := none
  password : Option String := none
  email : Option String := none
  full_name : Option String := none
  avatar : Option (Option String) := none
  address : Option (Option String) := none
  dark_mode : Option Bool := none
  google_id : Option (Option String) := none
  role : Option String := none
  last_login : Option Nat := none
deriving Repr, DecidableEq

/-- The `SET` clause column list that storage.js `updateUser` builds, one
entry per source `if` branch, in source order.  Note the `password` branch
tests JS truthiness (`if (userData.password)`) while every other branch
tests `!== undefined`. -/
def updateUserFields (u : UserUpdate) : List String :=
  (if u.username.isSome then ["username"] else []) ++
  (if jsTruthy u.password then ["password"] else []) ++
  (if u.email.isSome then ["email"] else []) ++
  (if u.full_name.isSome then ["full_name"] else []) ++
  (if u.avatar.isSome then ["avatar"] else []) ++
  (if u.address.isSome then ["address"] else []) ++
  (if u.dark_mode.isSome then ["dark_mode"] else []) ++
  (if u.google_id.isSome then ["google_id"] else [])

/-- Effect of the dynamically built `UPDATE users SET ... WHERE id = ?`
statement on one matching row. -/
def applyUserUpdate (u : UserUpdate) (r : UserRow) : UserRow :=
  { r with
    username := u.username.getD r.username
    password := if jsTruthy u.password then some (bcryptHash (u.password.getD "")) else r.password
    email := u.email.getD r.email
    full_name := u.full_name.getD r.full_name
    avatar := u.avatar.getD r.avatar
    address := u.address.getD r.address
    dark_mode := match u.dark_mode with
      | some b => if b then 1 else 0
      | none => r.dark_mode
    google_id := u.google_id.getD r.google_id }

/-- storage.js `updateUser`: if no update fields were collected it returns
the current row without running any statement, otherwise it runs the built
`UPDATE` and re-reads the row. -/
def updateUser (db : Db) (id : Nat) (u : UserUpdate) : Db × Option UserRow :=
  if updateUserFields u = [] then (db, getUser db id)
  else
    let db2 : Db :=
      { db with users := db.users.map (fun r => if r.id == id then applyUserUpdate u r else r) }
    (db2, getUser db2 id)

/-- storage.js `updateLastLogin`:
`UPDATE users SET last_login = CURRENT_TIMESTAMP WHERE id = ?`. -/
def updateLastLogin (db : Db) (id : Nat) (now : Nat) : Db :=
  { db with users := db.users.map (fun r => if r.id == id then { r with last_login := some now } else r) }

/-- storage.js `getUserWatchlist`. -/
def getUserWatchlist (db : Db) (userId : Nat) : List WatchlistRow :=
  db.user_watchlist.filter (fun r => r.user_id == userId)

/-- The object literal storage.js `addToWatchlist` returns on success (its
`id` field is left out: the source reads `result.lastID` from a driver call
that resolves a change count, so that field is `undefined`). -/
structure AddedItem where
  userId : Nat
  symbol : String
  createdAt : Nat
deriving Repr, DecidableEq

/-- storage.js `addToWatchlist`: inserts `(userId, symbol.toUpperCase())`.
A `UNIQUE(user_id, symbol)` violation (a row with the same user and
upper-cased symbol already present) is caught and re-thrown as the friendly
`already in your watchlist` error. -/
def addToWatchlist (db : Db) (userId : Nat) (symbol : String) (newId now : Nat) :
    Except String (Db × AddedItem) :=
  if db.user_watchlist.any (fun r => r.user_id == userId && r.symbol == jsToUpper symbol) then
    Except.error ("Stock " ++ symbol ++ " is already in your watchlist")
  else
    Except.ok
      ({ db with user_watchlist := db.user_watchlist ++ [⟨newId, userId, jsToUpper symbol, now⟩] },
       ⟨userId, jsToUpper symbol, now⟩)

/-- storage.js `removeFromWatchlist`:
`DELETE FROM user_watchlist WHERE user_id = ? AND symbol = ?` with the
upper-cased symbol. -/
def removeFromWatchlist (db : Db) (userId : Nat) (symbol : String) : Db :=
  { db with user_watchlist :=
      db.user_watchlist.filter (fun r => !(r.user_id == userId && r.symbol == jsToUpper symbol)) }

/-- storage.js `isInWatchlist`: `SELECT` with the upper-cased symbol, then `!!item`. -/
def isInWatchlist (db : Db) (userId : Nat) (symbol : String) : Bool :=
  (db.user_watchlist.find? (fun r => r.user_id == userId && r.symbol == jsToUpper symbol)).isSome

/-- storage.js `getPortfolio`: `SELECT * FROM portfolio WHERE id = ?`. -/
def getPortfolio (db : Db) (id : Nat) : Option PortfolioRow :=
  db.portfolio.find? (fun r => r.id == id)

/-- storage.js `getPortfolioPositions`. -/
def getPortfolioPositions (db : Db) (portfolioId : Nat) : List PositionRow :=
  db.portfolio_positions.filter (fun r => r.portfolio_id == portfolioId)

/-- storage.js `getPosition`. -/
def getPosition (db : Db) (id : Nat) : Option PositionRow :=
  db.portfolio_positions.find? (fun r => r.id == id)

/-- The `portfolioData` argument of storage.js `updatePortfolio`. -/
structure PortfolioUpdate where
  name : Option String := none
  description : Option (Option String) := none
deriving Repr, DecidableEq

/-- The `SET` clause column list of storage.js `updatePortfolio`. -/
def updatePortfolioFields (p : PortfolioUpdate) : List String :=
  (if p.name.isSome then ["name"] else []) ++
  (if p.description.isSome then ["description"] else [])

/-- Effect of the built `UPDATE portfolio SET ...` on one matching row. -/
def applyPortfolioUpdate (p : PortfolioUpdate) (r : PortfolioRow) : PortfolioRow :=
  { r with
    name := p.name.getD r.name
    description := p.description.getD r.description }

/-- storage.js `updatePortfolio`. -/
def updatePortfolio (db : Db) (id : Nat) (p : PortfolioUpdate) : Db × Option PortfolioRow :=
  if updatePortfolioFields p = [] then (db, getPortfolio db id)
  else
    let db2 : Db :=
      { db with portfolio := db.portfolio.map (fun r => if r.id == id then applyPortfolioUpdate p r else r) }
    (db2, getPortfolio db2 id)

/-- storage.js `deletePortfolio`; the `ON DELETE CASCADE` foreign key of
`portfolio_positions` removes the owned positions. -/
def deletePortfolio (db : Db) (id : Nat) : Db :=
  { db with
    portfolio := db.portfolio.filter (fun r => !(r.id == id))
    portfolio_positions := db.portfolio_positions.filter (fun r => !(r.portfolio_id == id)) }

/-- The `positionData` argument of storage.js `addPosition`. -/
structure NewPosition where
  portfolio_id : Nat
  symbol : String
  shares : Int
  purchase_price : Int
  purchase_date : Option Nat := none
  notes : Option String := none
deriving Repr, DecidableEq

/-- storage.js `addPosition`: inserts with `symbol.toUpperCase()`,
`purchase_date || new Date()` and `notes || null`, then re-reads by id. -/
def addPosition (db : Db) (p : NewPosition) (newId now : Nat) : Db × Option PositionRow :=
  let row : PositionRow :=
    { id := newId
      portfolio_id := p.portfolio_id
      symbol := jsToUpper p.symbol
      shares := p.shares
      purchase_price := p.purchase_price
      purchase_date := p.purchase_date.getD now
      notes := if jsTruthy p.notes then p.notes else none }
  let db2 : Db := { db with portfolio_positions := db.portfolio_positions ++ [row] }
  (db2, getPosition db2 newId)

/-- The `positionData` argument of storage.js `updatePosition`. -/
structure PositionUpdate where
  shares : Option Int := none
  purchase_price : Option Int := none
  purchase_date : Option Nat := none
  notes : Option (Option String) := none
deriving Repr, DecidableEq

/-- The `SET` clause column list of storage.js `updatePosition`. -/
def updatePositionFields (p : PositionUpdate) : List String :=
  (if p.shares.isSome then ["shares"] else []) ++
  (if p.purchase_price.isSome then ["purchase_price"] else []) ++
  (if p.purchase_date.isSome then ["purchase_date"] else []) ++
  (if p.notes.isSome then ["notes"] else [])

/-- Effect of the built `UPDATE portfolio_positions SET ...` on one matching row. -/
def applyPositionUpdate (p : PositionUpdate) (r : PositionRow) : PositionRow :=
  { r with
    shares := p.shares.getD r.shares
    purchase_price := p.purchase_price.getD r.purchase_price
    purchase_date := p.purchase_date.getD r.purchase_date
    notes := p.notes.getD r.notes }

/-- storage.js `updatePosition`. -/
def updatePosition (db : Db) (id : Nat) (p : PositionUpdate) : Db × Option PositionRow :=
  if updatePositionFields p = [] then (db, getPosition db id)
  else
    let db2 : Db :=
      { db with portfolio_positions :=
          db.portfolio_positions.map (fun r => if r.id == id then applyPositionUpdate p r else r) }
    (db2, getPosition db2 id)

/-- storage.js `deletePosition`. -/
def deletePosition (db : Db) (id : Nat) : Db :=
  { db with portfolio_positions := db.portfolio_positions.filter (fun r => !(r.id == id)) }

/-- storage.js `getRestrictedStocks`: `SELECT * FROM restricted_stocks`. -/
def getRestrictedStocks (db : Db) : List RestrictedRow :=
  db.restricted_stocks

/-- storage.js `addRestrictedStock`: inserts `symbol.toUpperCase()` and returns
an object literal (without re-reading).  The `UNIQUE` constraint on `symbol`
is not caught there, so a duplicate upper-cased symbol propagates as the raw
driver error. -/
def addRestrictedStock (db : Db) (symbol : String) (reason : Option String)
    (addedBy newId now : Nat) : Except String (Db × RestrictedRow) :=
  if db.restricted_stocks.any (fun r => r.symbol == jsToUpper symbol) then
    Except.error "UNIQUE constraint failed: restricted_stocks.symbol"
  else
    let row : RestrictedRow :=
      { id := newId
        symbol := jsToUpper symbol
        reason := if jsTruthy reason then reason else none
        added_by := addedBy
        added_at := now }
    (Except.ok ({ db with restricted_stocks := db.restricted_stocks ++ [row] }, row))

/-- The `stockData` argument of storage.js `addFeaturedStock`. -/
structure NewFeatured where
  symbol : String
  title : String
  description : Option String := none
  start_date : Option Nat := none
  end_date : Option Nat := none
  added_by : Nat
deriving Repr, DecidableEq

/-- storage.js `addFeaturedStock`: inserts with `symbol.toUpperCase()`,
`start_date || new Date()`, `end_date || null`, then re-reads by id. -/
def addFeaturedStock (db : Db) (s : NewFeatured) (newId now : Nat) : Db × Option FeaturedRow :=
  let row : FeaturedRow :=
    { id := newId
      symbol := jsToUpper s.symbol
      title := s.title
      description := if jsTruthy s.description then s.description else none
      start_date := s.start_date.getD now
      end_date := s.end_date
      added_by := s.added_by }
  let db2 : Db := { db with featured_stocks := db.featured_stocks ++ [row] }
  (db2, db2.featured_stocks.find? (fun r => r.id == newId))

/-! ### External market-data client (services/fmp-api.js) -/

/-- Outcome of one outbound axios call to the Financial Modeling Prep API.
`success body` carries `response.data` as an array of opaque JSON rows;
`failure status dataError message` carries `error.response?.status`,
`error.response?.data?.error` and `error.message`. -/
inductive ProviderResult where
  | success (body : List String)
  | failure (status : Option Nat) (dataError : Option String) (message : String)
deriving Repr, DecidableEq

/-- Models `const errorMessage = error.response?.data?.error || error.message`. -/
def fmpErrorMessage (dataError : Option String) (message : String) : String :=
  if jsTruthy dataError then dataError.getD "" else message

/-- The normalized error every fetch function throws on a rate-limit signal. -/
def rateLimitMessage : String := "API rate limit reached. Please try again later."

/-- Shared failure branch of every fetch function in fmp-api.js: when the
response status is 429, or the error message includes the `Limit Reach`
marker, throw the normalized rate-limit error; otherwise throw the
operation-specific prefixed error. -/
def fmpFailure (msgHead : String) (status : Option Nat) (dataError : Option String)
    (message : String) : String :=
  let errorMessage := fmpErrorMessage dataError message
  if status == some 429 || jsIncludes errorMessage "Limit Reach" then rateLimitMessage
  else msgHead ++ errorMessage

/-- A JS call that either returns a value or throws an `Error` with a message. -/
inductive FetchResult (α : Type) where
  | ok (v : α)
  | thrown (message : String)
deriving Repr, DecidableEq

/-- fmp-api.js `fetchStockQuote`: `if (!symbol) return null`, on success
`response.data[0] || null`, on failure the shared rate-limit analysis with
the `Error fetching stock quote: ` prefix. -/
def fetchStockQuote (symbol : String) (p : ProviderResult) : FetchResult (Option String) :=
  if symbol == "" then .ok none
  else match p with
    | .success body => .ok body.head?
    | .failure st de msg => .thrown (fmpFailure "Error fetching stock quote: " st de msg)

/-- fmp-api.js `fetchCompanyProfile`. -/
def fetchCompanyProfile (symbol : String) (p : ProviderResult) : FetchResult (Option String) :=
  if symbol == "" then .ok none
  else match p with
    | .success body => .ok body.head?
    | .failure st de msg => .thrown (fmpFailure "Error fetching company profile: " st de msg)

/-- fmp-api.js `fetchHistoricalData`: on success `response.data || null`
(an object, always truthy when the call succeeds). -/
def fetchHistoricalData (symbol : String) (p : ProviderResult) : FetchResult (Option (List String)) :=
  if symbol == "" then .ok none
  else match p with
    | .success body => .ok (some body)
    | .failure st de msg => .thrown (fmpFailure "Error fetching historical data: " st de msg)

/-- fmp-api.js `searchStocks`: `if (!query || query.length < 2) return []`,
on success `response.data || []`. -/
def searchStocks (query : String) (p : ProviderResult) : FetchResult (List String) :=
  if query == "" || query.length < 2 then .ok []
  else match p with
    | .success body => .ok body
    | .failure st de msg => .thrown (fmpFailure "Error searching stocks: " st de msg)

/-! ### HTTP responses and the app-level error handlers (app.js) -/

/-- JSON response bodies, by shape. -/
inductive Body where
  | jsonErr (message : String)
  | errObj (error : String)
  | successMsg (message : String)
  | data (payload : String)
  | dataList (payload : List String)
deriving Repr, DecidableEq

/-- An HTTP response: status code and JSON body. -/
structure Resp where
  status : Nat
  body : Body
deriving Repr, DecidableEq

/-- A thrown JS `Error` as seen by the express error handlers: plain
`new Error(msg)` has no `status` and no `statusCode` property. -/
structure JsError where
  message : String
  status : Option Nat := none
deriving Repr, DecidableEq

/-- app.js API error handler mounted on `/api`:
`statusCode = err.status || err.statusCode || 500`, body
`{success:false, message: err.message, error?}`. -/
def apiErrorHandler (err : JsError) : Resp :=
  ⟨err.status.getD 500, Body.jsonErr err.message⟩

/-! ### Stock data routes (routes/stock-api.js) -/

/-- Route `GET /api/stocks/quote/:symbol`: upper-cases the path symbol, 404 when the
quote is missing, and forwards a thrown error to the API error handler via
`next(error)`. -/
def getQuoteRoute (symbolParam : String) (p : ProviderResult) : Resp :=
  let symbol := jsToUpper symbolParam
  match fetchStockQuote symbol p with
  | .thrown e => apiErrorHandler ⟨e, none⟩
  | .ok none => ⟨404, Body.jsonErr ("No quote data found for symbol: " ++ symbol)⟩
  | .ok (some q) => ⟨200, Body.data q⟩

/-- Route `GET /api/stocks/profile/:symbol`. -/
def getProfileRoute (symbolParam : String) (p : ProviderResult) : Resp :=
  let symbol := jsToUpper symbolParam
  match fetchCompanyProfile symbol p with
  | .thrown e => apiErrorHandler ⟨e, none⟩
  | .ok none => ⟨404, Body.jsonErr ("No company profile found for symbol: " ++ symbol)⟩
  | .ok (some q) => ⟨200, Body.data q⟩

/-- Route `GET /api/stocks/historical/:symbol`. -/
def getHistoricalRoute (symbolParam : String) (p : ProviderResult) : Resp :=
  let symbol := jsToUpper symbolParam
  match fetchHistoricalData symbol p with
  | .thrown e => apiErrorHandler ⟨e, none⟩
  | .ok none => ⟨404, Body.jsonErr ("No historical data found for symbol: " ++ symbol)⟩
  | .ok (some d) => ⟨200, Body.dataList d⟩

/-- Route `GET /api/stocks/search?query=`: 400 for a missing or too-short query. -/
def searchRoute (query : String) (p : ProviderResult) : Resp :=
  if query == "" || query.length < 2 then
    ⟨400, Body.jsonErr "Search query must be at least 2 characters long"⟩
  else match searchStocks query p with
  | .thrown e => apiErrorHandler ⟨e, none⟩
  | .ok results => ⟨200, Body.dataList results⟩

/-- The four market-data read endpoints of the spec. -/
inductive ReadEndpoint where
  | quote
  | profile
  | historical
  | search
deriving Repr, DecidableEq

/-- Dispatch one read endpoint on its path or query parameter. -/
def runReadEndpoint : ReadEndpoint → String → ProviderResult → Resp
  | .quote, s, p => getQuoteRoute s p
  | .profile, s, p => getProfileRoute s p
  | .historical, s, p => getHistoricalRoute s p
  | .search, q, p => searchRoute q p

/-- The rate-limit signal condition every fetch function tests. -/
def isRateLimitSignal (status : Option Nat) (dataError : Option String) (message : String) : Bool :=
  status == some 429 || jsIncludes (fmpErrorMessage dataError message) "Limit Reach"

/-! ### Watchlist routes (routes/watchlist.js) -/

/-- The inner `catch` of `POST /api/watchlist/items`: 429 for a message that
includes `API rate limit`, otherwise 500 with the
`Error adding stock to watchlist: ` prefix.  Both an error thrown by
`fetchStockQuote` and an error thrown by `addToWatchlist` land here, because
the single inner `try` block wraps both calls; the outer `catch` (which would
map an `already in your watchlist` message to 400) is only reachable from
code outside the inner `try` and is therefore dead for these errors. -/
def watchlistAddCatch (db : Db) (e : String) : Db × Resp :=
  if jsIncludes e "API rate limit" then (db, ⟨429, Body.jsonErr e⟩)
  else (db, ⟨500, Body.jsonErr ("Error adding stock to watchlist: " ++ e)⟩)

/-- Route `POST /api/watchlist/items`: 400 for a missing symbol, 404 when no quote
resolves, 403 for a restricted symbol (compared case-insensitively), then
insert and 201; `p` is the provider outcome for the quote call. -/
def postWatchlistItems (db : Db) (userId : Nat) (symbol : Option String)
    (p : ProviderResult) (newId now : Nat) : Db × Resp :=
  if !jsTruthy symbol then (db, ⟨400, Body.jsonErr "Stock symbol is required"⟩)
  else
    let sym := symbol.getD ""
    match fetchStockQuote sym p with
    | .thrown e => watchlistAddCatch db e
    | .ok none => (db, ⟨404, Body.jsonErr ("Invalid stock symbol: " ++ sym)⟩)
    | .ok (some stockData) =>
      if (getRestrictedStocks db).any (fun stock => jsToUpper stock.symbol == jsToUpper sym) then
        (db, ⟨403, Body.jsonErr ("Stock " ++ sym ++ " is restricted and cannot be added to watchlists.")⟩)
      else
        match addToWatchlist db userId sym newId now with
        | .error e => watchlistAddCatch db e
        | .ok (db2, item) => (db2, ⟨201, Body.data (item.symbol ++ ":" ++ stockData)⟩)

/-! ### Authentication (auth.js and routes/auth.js) -/

/-- Result of the passport local-strategy verify callback. -/
inductive LoginOutcome where
  | failed (message : String)
  | ok (userId : Nat)
deriving Repr, DecidableEq

/-- auth.js `LocalStrategy` verify callback: look up by username, fail with
`Incorrect username` when absent; `user.password ? bcrypt.compare(...) :
false` so an OAuth-only account (or an empty stored hash) never matches;
fail with `Incorrect password` on mismatch; on success call
`updateLastLogin` and hand the user on. -/
def localStrategyVerify (db : Db) (username password : String) (now : Nat) :
    Db × LoginOutcome :=
  match getUserByUsername db username with
  | none => (db, .failed "Incorrect username")
  | some user =>
    let isMatch :=
      if jsTruthy user.password then bcryptCompare password (user.password.getD "") else false
    if !isMatch then (db, .failed "Incorrect password")
    else (updateLastLogin db user.id now, .ok user.id)

/-- Route `POST /auth/login` (routes/auth.js): authenticate with the local strategy
(401 with the strategy message on failure); on success `req.logIn` and then a
`storage.updateUser(user.id, { last_login: new Date() })` call whose payload
carries only a field `updateUser` has no branch for. -/
def postLogin (db : Db) (username password : String) (now : Nat) : Db × Resp :=
  match localStrategyVerify db username password now with
  | (db1, .failed msg) => (db1, ⟨401, Body.jsonErr msg⟩)
  | (db1, .ok uid) =>
    let upd := updateUser db1 uid { last_login := some now }
    (upd.1, ⟨200, Body.data "login success"⟩)

/-- The `req.body` of `POST /auth/register`; `none` is a missing field. -/
structure RegisterBody where
  username : Option String := none
  email : Option String := none
  password : Option String := none
  fullName : Option String := none
deriving Repr, DecidableEq

/-- Route `POST /auth/register` (routes/auth.js): 400 `All fields are required` for
any falsy field, 400 `Username already taken` when the username exists, 400
`Email already registered` when the email exists, otherwise create the user
(role `user`) and respond with the new user. -/
def postRegister (db : Db) (b : RegisterBody) (newId now : Nat) : Db × Resp :=
  if !jsTruthy b.username || !jsTruthy b.email || !jsTruthy b.password || !jsTruthy b.fullName then
    (db, ⟨400, Body.jsonErr "All fields are required"⟩)
  else match getUserByUsername db (b.username.getD "") with
  | some _ => (db, ⟨400, Body.jsonErr "Username already taken"⟩)
  | none => match getUserByEmail db (b.email.getD "") with
    | some _ => (db, ⟨400, Body.jsonErr "Email already registered"⟩)
    | none =>
      let create := createUser db
        { username := b.username.getD ""
          password := b.password
          email := b.email.getD ""
          full_name := b.fullName.getD ""
          role := some "user"
          avatar := none
          address := none
          dark_mode := false } newId now
      (create.1, ⟨200, Body.data "registered"⟩)

/-! ### Portfolio routes (routes/portfolio.js)

Every portfolio-scoped handler takes the session user id and the parsed path
parameters; a `none` parameter is a `parseInt` that returned `NaN`. -/

/-- Route `GET /api/portfolio/:id`. -/
def getPortfolioRoute (db : Db) (userId : Nat) (idParam : Option Nat) : Db × Resp :=
  match idParam with
  | none => (db, ⟨400, Body.errObj "Invalid portfolio ID"⟩)
  | some pid =>
    match getPortfolio db pid with
    | none => (db, ⟨404, Body.errObj "Portfolio not found"⟩)
    | some p =>
      if p.user_id != userId then (db, ⟨403, Body.errObj "Access denied"⟩)
      else (db, ⟨200, Body.dataList ((getPortfolioPositions db pid).map (fun r => r.symbol))⟩)

/-- Route `PUT /api/portfolio/:id`. -/
def putPortfolioRoute (db : Db) (userId : Nat) (idParam : Option Nat)
    (body : PortfolioUpdate) : Db × Resp :=
  match idParam with
  | none => (db, ⟨400, Body.errObj "Invalid portfolio ID"⟩)
  | some pid =>
    match getPortfolio db pid with
    | none => (db, ⟨404, Body.errObj "Portfolio not found"⟩)
    | some p =>
      if p.user_id != userId then (db, ⟨403, Body.errObj "Access denied"⟩)
      else
        let upd := updatePortfolio db pid body
        (upd.1, ⟨200, Body.data "updated portfolio"⟩)

/-- Route `DELETE /api/portfolio/:id`. -/
def deletePortfolioRoute (db : Db) (userId : Nat) (idParam : Option Nat) : Db × Resp :=
  match idParam with
  | none => (db, ⟨400, Body.errObj "Invalid portfolio ID"⟩)
  | some pid =>
    match getPortfolio db pid with
    | none => (db, ⟨404, Body.errObj "Portfolio not found"⟩)
    | some p =>
      if p.user_id != userId then (db, ⟨403, Body.errObj "Access denied"⟩)
      else (deletePortfolio db pid, ⟨200, Body.successMsg "Portfolio deleted successfully"⟩)

/-- Route `GET /api/portfolio/:id/positions`. -/
def getPositionsRoute (db : Db) (userId : Nat) (idParam : Option Nat) : Db × Resp :=
  match idParam with
  | none => (db, ⟨400, Body.errObj "Invalid portfolio ID"⟩)
  | some pid =>
    match getPortfolio db pid with
    | none => (db, ⟨404, Body.errObj "Portfolio not found"⟩)
    | some p =>
      if p.user_id != userId then (db, ⟨403, Body.errObj "Access denied"⟩)
      else (db, ⟨200, Body.dataList ((getPortfolioPositions db pid).map (fun r => r.symbol))⟩)

/-- The `req.body` of `POST /api/portfolio/:id/positions`. -/
structure NewPositionBody where
  symbol : Option String := none
  shares : Option Int := none
  purchase_price : Option Int := none
  purchase_date : Option Nat := none
  notes : Option String := none
deriving Repr, DecidableEq

/-- Route `POST /api/portfolio/:id/positions`: the 400 validation
(`isNaN(portfolioId) || !symbol || !shares || !purchase_price`) runs before
the existence and ownership checks. -/
def postPositionRoute (db : Db) (userId : Nat) (idParam : Option Nat)
    (body : NewPositionBody) (newId now : Nat) : Db × Resp :=
  if idParam.isNone || !jsTruthy body.symbol || !jsTruthyNum body.shares
      || !jsTruthyNum body.purchase_price then
    (db, ⟨400, Body.errObj "Missing required fields: symbol, shares, purchase_price"⟩)
  else
    let pid := idParam.getD 0
    match getPortfolio db pid with
    | none => (db, ⟨404, Body.errObj "Portfolio not found"⟩)
    | some p =>
      if p.user_id != userId then (db, ⟨403, Body.errObj "Access denied"⟩)
      else
        let add := addPosition db
          { portfolio_id := pid
            symbol := body.symbol.getD ""
            shares := body.shares.getD 0
            purchase_price := body.purchase_price.getD 0
            purchase_date := body.purchase_date
            notes := body.notes } newId now
        (add.1, ⟨201, Body.data "created position"⟩)

/-- Route `PUT /api/portfolio/:portfolioId/positions/:id`. -/
def putPositionRoute (db : Db) (userId : Nat) (pIdParam posIdParam : Option Nat)
    (body : PositionUpdate) : Db × Resp :=
  if pIdParam.isNone || posIdParam.isNone then
    (db, ⟨400, Body.errObj "Invalid portfolio or position ID"⟩)
  else
    let pid := pIdParam.getD 0
    let posId := posIdParam.getD 0
    match getPortfolio db pid with
    | none => (db, ⟨404, Body.errObj "Portfolio not found"⟩)
    | some p =>
      if p.user_id != userId then (db, ⟨403, Body.errObj "Access denied"⟩)
      else match getPosition db posId with
        | none => (db, ⟨404, Body.errObj "Position not found"⟩)
        | some pos =>
          if pos.portfolio_id != pid then
            (db, ⟨400, Body.errObj "Position does not belong to this portfolio"⟩)
          else
            let upd := updatePosition db posId body
            (upd.1, ⟨200, Body.data "updated position"⟩)

/-- Route `DELETE /api/portfolio/:portfolioId/positions/:id`. -/
def deletePositionRoute (db : Db) (userId : Nat) (pIdParam posIdParam : Option Nat) :
    Db × Resp :=
  if pIdParam.isNone || posIdParam.isNone then
    (db, ⟨400, Body.errObj "Invalid portfolio or position ID"⟩)
  else
    let pid := pIdParam.getD 0
    let posId := posIdParam.getD 0
    match getPortfolio db pid with
    | none => (db, ⟨404, Body.errObj "Portfolio not found"⟩)
    | some p =>
      if p.user_id != userId then (db, ⟨403, Body.errObj "Access denied"⟩)
      else match getPosition db posId with
        | none => (db, ⟨404, Body.errObj "Position not found"⟩)
        | some pos =>
          if pos.portfolio_id != pid then
            (db, ⟨400, Body.errObj "Position does not belong to this portfolio"⟩)
          else (deletePosition db posId, ⟨200, Body.successMsg "Position deleted successfully"⟩)

/-! ### Schema setup (database-setup.js) -/

/-- The ten `CREATE TABLE IF NOT EXISTS` statements of `initializeDatabase`,
by table name, in source order. -/
def schemaTables : List String :=
  ["users", "user_watchlist", "portfolio", "portfolio_positions", "screening_criteria",
   "app_settings", "api_logs", "restricted_stocks", "featured_stocks", "achievements"]

/-- The engine side of schema setup: the visible schema (created table names)
and, inside an open transaction, the snapshot taken at `BEGIN` that a
`ROLLBACK` restores. -/
structure EngineState where
  schema : List String
  txSnapshot : Option (List String)
deriving Repr, DecidableEq

/-- The statements `initializeDatabase` issues through `db.update`. -/
inductive SqlStmt where
  | beginTx
  | commit
  | rollback
  | createTable (name : String)
deriving Repr, DecidableEq

/-- One `db.update` call against the engine.  `fail` is the failure oracle:
`fail n = true` makes the `CREATE TABLE n` statement reject (disk error,
malformed DDL, ...).  `CREATE TABLE IF NOT EXISTS` is a no-op on an existing
table; `ROLLBACK` restores the snapshot taken at `BEGIN`. -/
def runStmt (fail : String → Bool) (st : EngineState) :
    SqlStmt → EngineState × Except String Unit
  | .beginTx => ({ st with txSnapshot := some st.schema }, .ok ())
  | .commit => ({ st with txSnapshot := none }, .ok ())
  | .rollback => ({ schema := st.txSnapshot.getD st.schema, txSnapshot := none }, .ok ())
  | .createTable n =>
    if fail n then (st, .error ("SQLITE_ERROR: cannot create table " ++ n))
    else if n ∈ st.schema then (st, .ok ())
    else ({ st with schema := st.schema ++ [n] }, .ok ())

/-- The awaited sequence of `CREATE TABLE` statements inside the inner `try`:
stops at the first failure, whose error propagates. -/
def runCreates (fail : String → Bool) (st : EngineState) :
    List String → EngineState × Except String Unit
  | [] => (st, .ok ())
  | n :: rest =>
    match runStmt fail st (.createTable n) with
    | (st1, .ok _) => runCreates fail st1 rest
    | (st1, .error e) => (st1, .error e)

/-- database-setup.js `initializeDatabase`: `BEGIN TRANSACTION`, the ten
creates, `COMMIT` on full success; the inner `catch` issues `ROLLBACK` and
re-throws the original error; the outer `catch` only logs and re-throws. -/
def initDatabase (fail : String → Bool) (st : EngineState) :
    EngineState × Except String Unit :=
  match runStmt fail st .beginTx with
  | (st1, .error e) => (st1, .error e)
  | (st1, .ok _) =>
    match runCreates fail st1 schemaTables with
    | (st2, .ok _) => ((runStmt fail st2 .commit).1, .ok ())
    | (st2, .error e) => ((runStmt fail st2 .rollback).1, .error e)

/-! ### Claim-side reading of "supplied fields" and concrete fixtures -/

/-- The recognized user columns an update payload supplies, read the way the
spec words it: a field is supplied exactly when the JS property is present
(not `undefined`) on the payload object.  This is the claim-side definition,
to be compared with `updateUserFields`, whose `password` branch additionally
requires JS truthiness. -/
def claimSuppliedUserFields (u : UserUpdate) : List String :=
  (if u.username.isSome then ["username"] else []) ++
  (if u.password.isSome then ["password"] else []) ++
  (if u.email.isSome then ["email"] else []) ++
  (if u.full_name.isSome then ["full_name"] else []) ++
  (if u.avatar.isSome then ["avatar"] else []) ++
  (if u.address.isSome then ["address"] else []) ++
  (if u.dark_mode.isSome then ["dark_mode"] else []) ++
  (if u.google_id.isSome then ["google_id"] else [])

/-- Fixture: a regular user with a local password. -/
def alice : UserRow :=
  { id := 1
    username := "alice"
    password := some (bcryptHash "pw1")
    email := "alice@example.com"
    full_name := "Alice A"
    role := "user"
    avatar := none
    address := none
    dark_mode := 0
    created_at := 0
    last_login := none
    google_id := none }

/-- Fixture: a second user, owner of portfolio 5. -/
def bob : UserRow :=
  { id := 2
    username := "bob"
    password := some (bcryptHash "pw2")
    email := "bob@example.com"
    full_name := "Bob B"
    role := "user"
    avatar := none
    address := none
    dark_mode := 0
    created_at := 0
    last_login := none
    google_id := none }

/-- Fixture database: alice (id 1) has `AMZN` on her watchlist, `XYZ` is
restricted, and portfolio 5 (with position 20) belongs to bob (id 2). -/
def dbFix : Db :=
  { users := [alice, bob]
    user_watchlist := [⟨10, 1, "AMZN", 5⟩]
    portfolio := [⟨5, 2, "Bob growth", none, 0⟩]
    portfolio_positions := [⟨20, 5, "TSLA", 3, 100, 0, none⟩]
    restricted_stocks := [⟨1, "XYZ", none, 2, 0⟩]
    featured_stocks := [] }

/-- Fixture payload: a password property explicitly present but empty. -/
def emptyPasswordPayload : UserUpdate := { password := some "" }

/-! ## Helper lemmas -/

theorem jsToUpper_ne_empty (s : String) (h : s ≠ "") : (jsToUpper s == "") = false := by
  rw [beq_eq_false_iff_ne]
  intro heq
  apply h
  have hd : s.data.map Char.toUpper = [] := congrArg String.data heq
  have hnil : s.data = [] := List.map_eq_nil_iff.mp hd
  cases s
  simp only at hnil
  simp [hnil]

theorem ne_empty_of_two_le (s : String) (h : 2 ≤ s.length) : s ≠ "" := by
  intro heq
  subst heq
  simp [String.length] at h

theorem find_map_update (l : List UserRow) (uid : Nat) (f : UserRow → UserRow)
    (hf : ∀ r, (f r).id = r.id) :
    (l.map (fun r => if r.id == uid then f r else r)).find? (fun r => r.id == uid)
      = (l.find? (fun r => r.id == uid)).map f := by
  induction l with
  | nil => rfl
  | cons a t ih =>
    by_cases h : (a.id == uid) = true
    · have hfa : ((f a).id == uid) = true := by rw [hf]; exact h
      simp only [List.map_cons, if_pos h]
      rw [List.find?_cons, List.find?_cons, hfa, h]
      rfl
    · have hb : (a.id == uid) = false := Bool.eq_false_iff.mpr h
      simp only [List.map_cons, if_neg h]
      rw [List.find?_cons, List.find?_cons, hb]
      simpa using ih

/-! ## Claim C10: updateUser never changes the role column -/

/-- C10: for every user id and every update payload — including payloads that
carry a `role` value, as `PUT /api/admin/users/:id` supplies — `updateUser`
leaves the `role` column of every users row unchanged, because its `SET`
clause has no branch for `role`. -/
theorem updateUser_preserves_role (db : Db) (id : Nat) (u : UserUpdate) :
    ((updateUser db id u).1).users.map (fun r => (r.id, r.role))
      = db.users.map (fun r => (r.id, r.role)) := by
  unfold updateUser
  split
  · rfl
  · simp only [List.map_map]
    apply List.map_congr_left
    intro r _
    by_cases h : (r.id == id) = true
    · simp only [Function.comp_apply, if_pos h]
      rfl
    · simp only [Function.comp_apply, if_neg h]

/-! ## Claim C4: partial-update semantics of updateUser -/

/-- C4, counterexample to the claim as stated: the payload
`{ password: "" }` supplies the recognized field `password` (the JS property
is present), yet `updateUser` builds an empty `SET` clause — the source
branch tests truthiness, not presence — so it performs no write and returns
the current record with the stored password hash untouched. -/
theorem updateUser_empty_password_counterexample :
    claimSuppliedUserFields emptyPasswordPayload = ["password"] ∧
    updateUserFields emptyPasswordPayload = [] ∧
    updateUser dbFix 1 emptyPasswordPayload = (dbFix, some alice) ∧
    alice.password = some (bcryptHash "pw1") := by
  refine ⟨rfl, rfl, ?_, rfl⟩
  decide

/-- C4, amended: `updateUser` changes at most the supplied recognized fields
(a falsy `password` value is ignored), leaves every omitted field of the row
unchanged (omitted fields are not nulled), writes every effectively supplied
field, and when no update field is collected it performs no write and
returns the current record, so read, update with no fields, read round-trips. -/
theorem updateUser_only_supplied_fields (db : Db) (id : Nat) (u : UserUpdate) (r : UserRow) :
    (u.username = none → (applyUserUpdate u r).username = r.username) ∧
    (jsTruthy u.password = false → (applyUserUpdate u r).password = r.password) ∧
    (u.email = none → (applyUserUpdate u r).email = r.email) ∧
    (u.full_name = none → (applyUserUpdate u r).full_name = r.full_name) ∧
    (u.avatar = none → (applyUserUpdate u r).avatar = r.avatar) ∧
    (u.address = none → (applyUserUpdate u r).address = r.address) ∧
    (u.dark_mode = none → (applyUserUpdate u r).dark_mode = r.dark_mode) ∧
    (u.google_id = none → (applyUserUpdate u r).google_id = r.google_id) ∧
    ((applyUserUpdate u r).role = r.role ∧ (applyUserUpdate u r).created_at = r.created_at ∧
      (applyUserUpdate u r).last_login = r.last_login) ∧
    (∀ v, u.username = some v → (applyUserUpdate u r).username = v) ∧
    (∀ pw, u.password = some pw → pw ≠ "" →
      (applyUserUpdate u r).password = some (bcryptHash pw)) ∧
    (∀ v, u.email = some v → (applyUserUpdate u r).email = v) ∧
    (∀ v, u.full_name = some v → (applyUserUpdate u r).full_name = v) ∧
    (∀ v, u.avatar = some v → (applyUserUpdate u r).avatar = v) ∧
    (∀ v, u.address = some v → (applyUserUpdate u r).address = v) ∧
    (∀ b, u.dark_mode = some b → (applyUserUpdate u r).dark_mode = if b then 1 else 0) ∧
    (∀ v, u.google_id = some v → (applyUserUpdate u r).google_id = v) ∧
    (updateUserFields u = [] → updateUser db id u = (db, getUser db id)) := by
  refine ⟨?_, ?_, ?_, ?_, ?_, ?_, ?_, ?_, ⟨rfl, rfl, rfl⟩, ?_, ?_, ?_, ?_, ?_, ?_, ?_, ?_, ?_⟩
  · intro h; simp [applyUserUpdate, h]
  · intro h; simp [applyUserUpdate, h]
  · intro h; simp [applyUserUpdate, h]
  · intro h; simp [applyUserUpdate, h]
  · intro h; simp [applyUserUpdate, h]
  · intro h; simp [applyUserUpdate, h]
  · intro h; simp [applyUserUpdate, h]
  · intro h; simp [applyUserUpdate, h]
  · intro v h; simp [applyUserUpdate, h]
  · intro pw h hne; simp [applyUserUpdate, h, jsTruthy, hne]
  · intro v h; simp [applyUserUpdate, h]
  · intro v h; simp [applyUserUpdate, h]
  · intro v h; simp [applyUserUpdate, h]
  · intro v h; simp [applyUserUpdate, h]
  · intro b h; simp [applyUserUpdate, h]
  · intro v h; simp [applyUserUpdate, h]
  · intro h; simp [updateUser, h]

/-- Witness for C4: the payload `{ email: "new@example.com" }` changes the
email and nothing else, and the empty payload round-trips. -/
theorem updateUser_only_supplied_fields_witness :
    (applyUserUpdate { email := some "new@example.com" } alice).email = "new@example.com" ∧
    (applyUserUpdate { email := some "new@example.com" } alice).full_name = alice.full_name ∧
    (applyUserUpdate { email := some "new@example.com" } alice).role = alice.role ∧
    updateUser dbFix 1 {} = (dbFix, getUser dbFix 1) := by
  have h := updateUser_only_supplied_fields dbFix 1 { email := some "new@example.com" } alice
  have h0 := updateUser_only_supplied_fields dbFix 1 ({} : UserUpdate) alice
  refine ⟨h.2.2.2.2.2.2.2.2.2.2.2.1 "new@example.com" rfl, ?_, h.2.2.2.2.2.2.2.2.1.1, ?_⟩
  · exact h.2.2.2.1 rfl
  · exact h0.2.2.2.2.2.2.2.2.2.2.2.2.2.2.2.2.2 rfl

/-! ## Claim C6: duplicate-username registration -/

/-- C6: for every registration request that passes the field-presence check
and whose username equals an existing username, `POST /auth/register`
responds 400 with message `Username already taken` and leaves the database
(in particular the users table) unchanged. -/
theorem register_duplicate_username (db : Db) (b : RegisterBody) (newId now : Nat) (w : UserRow)
    (hu : jsTruthy b.username = true) (he : jsTruthy b.email = true)
    (hp : jsTruthy b.password = true) (hf : jsTruthy b.fullName = true)
    (hex : getUserByUsername db (b.username.getD "") = some w) :
    postRegister db b newId now = (db, ⟨400, Body.jsonErr "Username already taken"⟩) := by
  simp [postRegister, hu, he, hp, hf, hex]

/-- Witness for C6: registering `alice` again against the fixture database. -/
theorem register_duplicate_username_witness :
    postRegister dbFix
        { username := some "alice", email := some "other@example.com",
          password := some "secret", fullName := some "Alice Again" } 3 7
      = (dbFix, ⟨400, Body.jsonErr "Username already taken"⟩) := by
  exact register_duplicate_username dbFix
    { username := some "alice", email := some "other@example.com",
      password := some "secret", fullName := some "Alice Again" } 3 7 alice
    (by decide) (by decide) (by decide) (by decide) (by decide)

/-! ## Claim C2: restricted symbols are rejected with 403, after quote resolution -/

/-- C2: for a non-empty symbol on the restricted list (compared
case-insensitively), `POST /api/watchlist/items` responds 403 and leaves the
database — in particular the watchlist — unchanged, provided the quote
resolved; and when the quote does not resolve the response is 404 first,
regardless of the restricted list. -/
theorem restricted_add_403 (db : Db) (userId : Nat) (sym : String) (p : ProviderResult)
    (newId now : Nat) (d : String)
    (hsym : sym ≠ "")
    (hres : db.restricted_stocks.any (fun stock => jsToUpper stock.symbol == jsToUpper sym) = true) :
    (fetchStockQuote sym p = .ok (some d) →
      postWatchlistItems db userId (some sym) p newId now
        = (db, ⟨403, Body.jsonErr ("Stock " ++ sym ++ " is restricted and cannot be added to watchlists.")⟩)) ∧
    (fetchStockQuote sym p = .ok none →
      postWatchlistItems db userId (some sym) p newId now
        = (db, ⟨404, Body.jsonErr ("Invalid stock symbol: " ++ sym)⟩)) := by
  constructor
  · intro hq
    simp [postWatchlistItems, jsTruthy, hsym, hq, getRestrictedStocks, hres]
  · intro hq
    simp [postWatchlistItems, jsTruthy, hsym, hq]

/-- Witness for C2: adding restricted `xyz` (lower case, matching restricted
`XYZ` case-insensitively) gives 403 with the watchlist untouched; an
unresolvable symbol gives 404. -/
theorem restricted_add_403_witness :
    postWatchlistItems dbFix 1 (some "xyz") (.success ["quoteRow"]) 11 6
      = (dbFix, ⟨403, Body.jsonErr "Stock xyz is restricted and cannot be added to watchlists."⟩) ∧
    postWatchlistItems dbFix 1 (some "xyz") (.success []) 11 6
      = (dbFix, ⟨404, Body.jsonErr "Invalid stock symbol: xyz"⟩) := by
  constructor
  · exact (restricted_add_403 dbFix 1 "xyz" (.success ["quoteRow"]) 11 6 "quoteRow"
      (by decide) (by decide)).1 (by decide)
  · exact (restricted_add_403 dbFix 1 "xyz" (.success []) 11 6 "quoteRow"
      (by decide) (by decide)).2 (by decide)

/-! ## Claim C1: duplicate watchlist add -/

/-- C1 is a code bug: the first add of a valid, non-restricted symbol does
return 201, but the second identical add returns 500, not 400/409, because
the error thrown by `addToWatchlist` is caught by the inner `catch` of the
route (whose 400 mapping in the outer `catch` is dead code), and the message
`Error adding stock to watchlist: Stock AMZN is already in your watchlist`
does not contain the substring `already in watchlist` that the claim (and
the repository test script) pattern-match. -/
theorem duplicate_watchlist_add_returns_500 :
    (postWatchlistItems { dbFix with user_watchlist := [] } 1 (some "AMZN")
        (.success ["quoteRow"]) 10 5).2.status = 201 ∧
    postWatchlistItems dbFix 1 (some "AMZN") (.success ["quoteRow"]) 11 6
      = (dbFix, ⟨500, Body.jsonErr
          "Error adding stock to watchlist: Stock AMZN is already in your watchlist"⟩) ∧
    jsIncludes "Error adding stock to watchlist: Stock AMZN is already in your watchlist"
      "already in watchlist" = false ∧
    jsIncludes "Error adding stock to watchlist: Stock AMZN is already in your watchlist"
      "already in your watchlist" = true := by
  refine ⟨by decide, by decide, by decide, by decide⟩

/-! ## Claim C3: successful local login refreshes last_login -/

/-- C3: after a successful `POST /auth/login` with a correct username and
password, the stored user row carries `last_login = now` (the login time):
the `LocalStrategy` verify callback calls `updateLastLogin` before handing
the user to the route, and the route additionally calls `updateUser` with a
`last_login` payload that `updateUser` ignores (a no-op). -/
theorem login_updates_last_login (db : Db) (username password : String) (now : Nat) (r : UserRow)
    (hu : getUserByUsername db username = some r)
    (hhash : jsTruthy r.password = true)
    (hpw : bcryptCompare password (r.password.getD "") = true)
    (hid : getUser db r.id = some r) :
    postLogin db username password now
      = (updateLastLogin db r.id now, ⟨200, Body.data "login success"⟩) ∧
    getUser (postLogin db username password now).1 r.id
      = some { r with last_login := some now } := by
  have hstep : postLogin db username password now
      = (updateLastLogin db r.id now, ⟨200, Body.data "login success"⟩) := by
    simp only [postLogin, localStrategyVerify, hu, hhash, hpw]
    simp [updateUser, updateUserFields, jsTruthy]
  refine ⟨hstep, ?_⟩
  rw [hstep]
  show (updateLastLogin db r.id now).users.find? (fun x => x.id == r.id)
      = some { r with last_login := some now }
  unfold updateLastLogin
  rw [find_map_update db.users r.id (fun x => { x with last_login := some now }) (fun _ => rfl)]
  rw [show db.users.find? (fun x => x.id == r.id) = some r from hid]
  rfl

/-- Witness for C3: alice logs in with the right password at time 99 and her
stored row afterwards has `last_login = 99`. -/
theorem login_updates_last_login_witness :
    getUser (postLogin dbFix "alice" "pw1" 99).1 1 = some { alice with last_login := some 99 } := by
  exact (login_updates_last_login dbFix "alice" "pw1" 99 alice
    (by decide) (by decide) (by decide) (by decide)).2

/-! ## Claim C5: provider rate limits on the four read endpoints -/

/-- C5, counterexample to the claim as stated: a provider rejection with HTTP
status 429 on `GET /api/stocks/quote/:symbol` reaches the caller as HTTP 500,
not 429 — the route forwards the thrown error through `next(error)` to the
`/api` error handler, which reads `err.status || err.statusCode || 500` from
a plain `Error` object carrying neither property. -/
theorem rate_limit_quote_counterexample :
    getQuoteRoute "AAPL" (.failure (some 429) none "Request failed with status code 429")
      = ⟨500, Body.jsonErr rateLimitMessage⟩ ∧
    (getQuoteRoute "AAPL" (.failure (some 429) none "Request failed with status code 429")).status
      ≠ 429 := by
  refine ⟨by decide, by decide⟩

/-- C5, amended: on a rate-limit signal (provider response status 429, or an
error message carrying the `Limit Reach` marker) each of the four read
endpoints responds 500 — not 429 — and the message is the normalized
rate-limit error, which does contain `rate limit`.  Only the watchlist-add
route maps this error to 429. -/
theorem rate_limit_surfaces_as_500 (ep : ReadEndpoint) (s : String) (st : Option Nat)
    (de : Option String) (msg : String)
    (hsig : isRateLimitSignal st de msg = true)
    (hlen : 2 ≤ s.length) :
    runReadEndpoint ep s (.failure st de msg) = ⟨500, Body.jsonErr rateLimitMessage⟩ ∧
    jsIncludes rateLimitMessage "rate limit" = true := by
  have hne : s ≠ "" := ne_empty_of_two_le s hlen
  have hup : (jsToUpper s == "") = false := jsToUpper_ne_empty s hne
  have hne2 : (s == "") = false := beq_eq_false_iff_ne.mpr hne
  have hlt : ¬s.length < 2 := Nat.not_lt.mpr hlen
  have hcond : (st == some 429 || jsIncludes (fmpErrorMessage de msg) "Limit Reach") = true := hsig
  refine ⟨?_, by decide⟩
  cases ep
  · simp [runReadEndpoint, getQuoteRoute, fetchStockQuote, hup, fmpFailure, hcond, apiErrorHandler]
  · simp [runReadEndpoint, getProfileRoute, fetchCompanyProfile, hup, fmpFailure, hcond,
      apiErrorHandler]
  · simp [runReadEndpoint, getHistoricalRoute, fetchHistoricalData, hup, fmpFailure, hcond,
      apiErrorHandler]
  · simp [runReadEndpoint, searchRoute, searchStocks, hne2, hlt, fmpFailure, hcond, apiErrorHandler]

/-- Witness for C5 (amended): a `Limit Reach` provider message on the search
endpoint surfaces as 500 with the normalized rate-limit message. -/
theorem rate_limit_surfaces_as_500_witness :
    runReadEndpoint .search "apple" (.failure none none "You have reached your API Limit Reach")
      = ⟨500, Body.jsonErr rateLimitMessage⟩ := by
  exact (rate_limit_surfaces_as_500 .search "apple" none none
    "You have reached your API Limit Reach" (by decide) (by decide)).1

/-! ## Claim C7: portfolio-scoped routes check existence (404) then ownership (403) -/

/-- C7: for each of the seven portfolio-scoped handlers, a missing portfolio
id yields 404 `Portfolio not found` and an existing portfolio owned by a
different user yields 403 `Access denied`, the 404 check coming first; in
both cases the database is returned unchanged and the response body carries
no portfolio or position data. -/
theorem portfolio_scoped_404_then_403 (db : Db) (userId pid posId : Nat)
    (pb : PortfolioUpdate) (nb : NewPositionBody) (ub : PositionUpdate) (newId now : Nat)
    (hsym : jsTruthy nb.symbol = true) (hsh : jsTruthyNum nb.shares = true)
    (hpr : jsTruthyNum nb.purchase_price = true) :
    (getPortfolio db pid = none →
      getPortfolioRoute db userId (some pid) = (db, ⟨404, Body.errObj "Portfolio not found"⟩) ∧
      putPortfolioRoute db userId (some pid) pb = (db, ⟨404, Body.errObj "Portfolio not found"⟩) ∧
      deletePortfolioRoute db userId (some pid) = (db, ⟨404, Body.errObj "Portfolio not found"⟩) ∧
      getPositionsRoute db userId (some pid) = (db, ⟨404, Body.errObj "Portfolio not found"⟩) ∧
      postPositionRoute db userId (some pid) nb newId now
        = (db, ⟨404, Body.errObj "Portfolio not found"⟩) ∧
      putPositionRoute db userId (some pid) (some posId) ub
        = (db, ⟨404, Body.errObj "Portfolio not found"⟩) ∧
      deletePositionRoute db userId (some pid) (some posId)
        = (db, ⟨404, Body.errObj "Portfolio not found"⟩)) ∧
    (∀ p, getPortfolio db pid = some p → p.user_id ≠ userId →
      getPortfolioRoute db userId (some pid) = (db, ⟨403, Body.errObj "Access denied"⟩) ∧
      putPortfolioRoute db userId (some pid) pb = (db, ⟨403, Body.errObj "Access denied"⟩) ∧
      deletePortfolioRoute db userId (some pid) = (db, ⟨403, Body.errObj "Access denied"⟩) ∧
      getPositionsRoute db userId (some pid) = (db, ⟨403, Body.errObj "Access denied"⟩) ∧
      postPositionRoute db userId (some pid) nb newId now
        = (db, ⟨403, Body.errObj "Access denied"⟩) ∧
      putPositionRoute db userId (some pid) (some posId) ub
        = (db, ⟨403, Body.errObj "Access denied"⟩) ∧
      deletePositionRoute db userId (some pid) (some posId)
        = (db, ⟨403, Body.errObj "Access denied"⟩)) := by
  constructor
  · intro h
    refine ⟨?_, ?_, ?_, ?_, ?_, ?_, ?_⟩
    · simp [getPortfolioRoute, h]
    · simp [putPortfolioRoute, h]
    · simp [deletePortfolioRoute, h]
    · simp [getPositionsRoute, h]
    · simp [postPositionRoute, hsym, hsh, hpr, h]
    · simp [putPositionRoute, h]
    · simp [deletePositionRoute, h]
  · intro p hp hne
    have hb : (p.user_id != userId) = true := bne_iff_ne.mpr hne
    refine ⟨?_, ?_, ?_, ?_, ?_, ?_, ?_⟩
    · simp [getPortfolioRoute, hp, hb]
    · simp [putPortfolioRoute, hp, hb]
    · simp [deletePortfolioRoute, hp, hb]
    · simp [getPositionsRoute, hp, hb]
    · simp [postPositionRoute, hsym, hsh, hpr, hp, hb]
    · simp [putPositionRoute, hp, hb]
    · simp [deletePositionRoute, hp, hb]

/-- Witness for C7: against the fixture database (portfolio 5 owned by bob,
id 2) and requester alice (id 1), a missing id gives 404 and a foreign id
gives 403, with the database unchanged. -/
theorem portfolio_scoped_404_then_403_witness :
    getPortfolioRoute dbFix 1 (some 99) = (dbFix, ⟨404, Body.errObj "Portfolio not found"⟩) ∧
    deletePortfolioRoute dbFix 1 (some 5) = (dbFix, ⟨403, Body.errObj "Access denied"⟩) ∧
    postPositionRoute dbFix 1 (some 5) ⟨some "TSLA", some 1, some 50, none, none⟩ 30 9
      = (dbFix, ⟨403, Body.errObj "Access denied"⟩) := by
  have h1 := portfolio_scoped_404_then_403 dbFix 1 99 21 {}
    ⟨some "TSLA", some 1, some 50, none, none⟩ {} 30 9 (by decide) (by decide) (by decide)
  have h2 := portfolio_scoped_404_then_403 dbFix 1 5 21 {}
    ⟨some "TSLA", some 1, some 50, none, none⟩ {} 30 9 (by decide) (by decide) (by decide)
  have h403 := h2.2 ⟨5, 2, "Bob growth", none, 0⟩ (by decide) (by decide)
  exact ⟨(h1.1 (by decide)).1, h403.2.2.1, h403.2.2.2.2.1⟩

/-! ## Claim C8: schema initialization is transactional -/

theorem runCreates_txSnapshot (fail : String → Bool) (l : List String) (st : EngineState) :
    ((runCreates fail st l).1).txSnapshot = st.txSnapshot := by
  induction l generalizing st with
  | nil => rfl
  | cons n rest ih =>
    by_cases hf : fail n
    · simp [runCreates, runStmt, hf]
    · by_cases hc : n ∈ st.schema
      · simp [runCreates, runStmt, hf, hc, ih]
      · simp only [runCreates, runStmt, if_neg hf, if_neg hc]
        exact ih _

theorem runCreates_mono (fail : String → Bool) (l : List String) (st : EngineState) (x : String)
    (hx : x ∈ st.schema) : x ∈ ((runCreates fail st l).1).schema := by
  induction l generalizing st with
  | nil => exact hx
  | cons n rest ih =>
    by_cases hf : fail n
    · simp [runCreates, runStmt, hf]
      exact hx
    · by_cases hc : n ∈ st.schema
      · simp only [runCreates, runStmt, if_neg hf, if_pos hc]
        exact ih st hx
      · simp only [runCreates, runStmt, if_neg hf, if_neg hc]
        exact ih _ (List.mem_append_left _ hx)

theorem runCreates_ok_mem (fail : String → Bool) (l : List String) (st : EngineState)
    (hok : (runCreates fail st l).2 = .ok ()) :
    ∀ t ∈ l, t ∈ ((runCreates fail st l).1).schema := by
  induction l generalizing st with
  | nil => intro t ht; cases ht
  | cons n rest ih =>
    by_cases hf : fail n
    · simp [runCreates, runStmt, hf] at hok
    · by_cases hc : n ∈ st.schema
      · simp only [runCreates, runStmt, if_neg hf, if_pos hc] at hok ⊢
        intro t ht
        rcases List.mem_cons.mp ht with rfl | ht2
        · exact runCreates_mono fail rest st t hc
        · exact ih st hok t ht2
      · simp only [runCreates, runStmt, if_neg hf, if_neg hc] at hok ⊢
        intro t ht
        rcases List.mem_cons.mp ht with rfl | ht2
        · exact runCreates_mono fail rest _ t (List.mem_append_right _ (List.mem_singleton.mpr rfl))
        · exact ih _ hok t ht2

theorem runCreates_ok_nofail (fail : String → Bool) (l : List String) (st : EngineState)
    (hok : (runCreates fail st l).2 = .ok ()) : ∀ t ∈ l, fail t = false := by
  induction l generalizing st with
  | nil => intro t ht; cases ht
  | cons n rest ih =>
    by_cases hf : fail n
    · simp [runCreates, runStmt, hf] at hok
    · by_cases hc : n ∈ st.schema
      · simp only [runCreates, runStmt, if_neg hf, if_pos hc] at hok
        intro t ht
        rcases List.mem_cons.mp ht with rfl | ht2
        · exact Bool.eq_false_iff.mpr hf
        · exact ih st hok t ht2
      · simp only [runCreates, runStmt, if_neg hf, if_neg hc] at hok
        intro t ht
        rcases List.mem_cons.mp ht with rfl | ht2
        · exact Bool.eq_false_iff.mpr hf
        · exact ih _ hok t ht2

/-- C8: starting outside any transaction, `initializeDatabase` either
succeeds — in which case every table-creation statement succeeded and all
ten tables are in the committed schema — or fails, in which case the error
is re-raised and the schema is exactly what it was before the `BEGIN`
(the `ROLLBACK` issued by the inner catch restores the snapshot). -/
theorem init_database_atomic (fail : String → Bool) (st : EngineState) :
    ((initDatabase fail st).2 = .ok () →
      (∀ t ∈ schemaTables, t ∈ ((initDatabase fail st).1).schema) ∧
      (∀ t ∈ schemaTables, fail t = false) ∧
      ((initDatabase fail st).1).txSnapshot = none) ∧
    (∀ e, (initDatabase fail st).2 = .error e →
      (initDatabase fail st).1 = ⟨st.schema, none⟩) := by
  have hrw : initDatabase fail st
      = match runCreates fail { st with txSnapshot := some st.schema } schemaTables with
        | (st2, .ok _) => ({ st2 with txSnapshot := none }, .ok ())
        | (st2, .error e) =>
          ({ schema := st2.txSnapshot.getD st2.schema, txSnapshot := none }, .error e) := by
    simp [initDatabase, runStmt]
  rcases hrc : runCreates fail { st with txSnapshot := some st.schema } schemaTables
    with ⟨st2, r2⟩
  have hsnap : st2.txSnapshot = some st.schema := by
    have h := runCreates_txSnapshot fail schemaTables { st with txSnapshot := some st.schema }
    rw [hrc] at h
    exact h
  cases r2 with
  | ok u =>
    cases u
    rw [hrw, hrc]
    constructor
    · intro _
      refine ⟨?_, ?_, rfl⟩
      · intro t ht
        have hm := runCreates_ok_mem fail schemaTables { st with txSnapshot := some st.schema }
          (by rw [hrc]) t ht
        rw [hrc] at hm
        exact hm
      · exact runCreates_ok_nofail fail schemaTables { st with txSnapshot := some st.schema }
          (by rw [hrc])
    · intro e he
      exact Except.noConfusion he
  | error e =>
    rw [hrw, hrc]
    constructor
    · intro hok
      exact Except.noConfusion hok
    · intro e2 he
      simp [hsnap]

/-- Witness for C8: with nothing failing the schema ends up holding all ten
tables; with the `api_logs` create failing the error propagates and the
schema is rolled back to empty. -/
theorem init_database_atomic_witness :
    "users" ∈ ((initDatabase (fun _ => false) ⟨[], none⟩).1).schema ∧
    (initDatabase (fun n => n == "api_logs") ⟨[], none⟩).1 = ⟨[], none⟩ := by
  have hok := init_database_atomic (fun _ => false) ⟨[], none⟩
  have herr := init_database_atomic (fun n => n == "api_logs") ⟨[], none⟩
  refine ⟨(hok.1 (by rfl)).1 "users" (by decide), ?_⟩
  exact herr.2 "SQLITE_ERROR: cannot create table api_logs" (by rfl)

/-! ## Claim C9: symbols are normalized to upper case at the storage boundary -/

/-- C9: every storage insert of a symbol (`addToWatchlist`, `addPosition`,
`addRestrictedStock`, `addFeaturedStock`) stores the upper-casing of its
input, every watchlist lookup or delete (`isInWatchlist`,
`removeFromWatchlist`) compares the upper-casing of its input, and hence
watchlist membership and uniqueness are case-insensitive: two symbols with
the same upper-casing are interchangeable in lookups, and after one is added
the other cannot be added again. -/
theorem symbols_normalized_upper (db : Db) (u : Nat) (s t : String) (newId now : Nat)
    (np : NewPosition) (fs : NewFeatured) (reason : Option String) (addedBy : Nat) :
    (∀ db2 item, addToWatchlist db u s newId now = .ok (db2, item) →
      item.symbol = jsToUpper s ∧
      db2.user_watchlist = db.user_watchlist ++ [⟨newId, u, jsToUpper s, now⟩]) ∧
    ((addPosition db np newId now).1.portfolio_positions
      = db.portfolio_positions ++
        [⟨newId, np.portfolio_id, jsToUpper np.symbol, np.shares, np.purchase_price,
          np.purchase_date.getD now, if jsTruthy np.notes then np.notes else none⟩]) ∧
    (∀ db2 row, addRestrictedStock db s reason addedBy newId now = .ok (db2, row) →
      row.symbol = jsToUpper s ∧
      db2.restricted_stocks = db.restricted_stocks ++ [row]) ∧
    ((addFeaturedStock db fs newId now).1.featured_stocks
      = db.featured_stocks ++
        [⟨newId, jsToUpper fs.symbol, fs.title,
          if jsTruthy fs.description then fs.description else none,
          fs.start_date.getD now, fs.end_date, fs.added_by⟩]) ∧
    ((removeFromWatchlist db u s).user_watchlist
      = db.user_watchlist.filter (fun r => !(r.user_id == u && r.symbol == jsToUpper s))) ∧
    (jsToUpper s = jsToUpper t → isInWatchlist db u s = isInWatchlist db u t) ∧
    (jsToUpper s = jsToUpper t →
      ∀ db2 item, addToWatchlist db u s newId now = .ok (db2, item) →
      ∀ newId2 now2, addToWatchlist db2 u t newId2 now2
        = .error ("Stock " ++ t ++ " is already in your watchlist")) := by
  refine ⟨?_, rfl, ?_, rfl, rfl, ?_, ?_⟩
  · intro db2 item h
    unfold addToWatchlist at h
    split at h
    · exact Except.noConfusion h
    · simp only [Except.ok.injEq, Prod.mk.injEq] at h
      obtain ⟨h1, h2⟩ := h
      subst h1
      subst h2
      exact ⟨rfl, rfl⟩
  · intro db2 row h
    unfold addRestrictedStock at h
    split at h
    · exact Except.noConfusion h
    · simp only [Except.ok.injEq, Prod.mk.injEq] at h
      obtain ⟨h1, h2⟩ := h
      subst h1
      subst h2
      exact ⟨rfl, rfl⟩
  · intro hst
    unfold isInWatchlist
    rw [hst]
  · intro hst db2 item hadd newId2 now2
    unfold addToWatchlist at hadd
    split at hadd
    · exact Except.noConfusion hadd
    · simp only [Except.ok.injEq, Prod.mk.injEq] at hadd
      obtain ⟨h1, h2⟩ := hadd
      subst h1
      unfold addToWatchlist
      have hc : ({ db with user_watchlist :=
            db.user_watchlist ++ [⟨newId, u, jsToUpper s, now⟩] } : Db).user_watchlist.any
          (fun r => r.user_id == u && r.symbol == jsToUpper t) = true := by
        simp [List.any_append, hst]
      rw [if_pos hc]

/-- Witness for C9: lower-case lookups and duplicates behave exactly like
their upper-cased forms against the fixtures. -/
theorem symbols_normalized_upper_witness :
    isInWatchlist dbFix 1 "amzn" = isInWatchlist dbFix 1 "AMZN" ∧
    isInWatchlist dbFix 1 "amzn" = true ∧
    addToWatchlist { dbFix with user_watchlist := [⟨11, 1, "MSFT", 6⟩] } 1 "Msft" 12 7
      = .error "Stock Msft is already in your watchlist" := by
  have h1 := (symbols_normalized_upper dbFix 1 "amzn" "AMZN" 11 6
    ⟨0, "x", 1, 1, none, none⟩ ⟨"x", "t", none, none, none, 1⟩ none 1).2.2.2.2.2.1 (by decide)
  have h2 := (symbols_normalized_upper { dbFix with user_watchlist := [] } 1 "msft" "Msft" 11 6
    ⟨0, "x", 1, 1, none, none⟩ ⟨"x", "t", none, none, none, 1⟩ none 1).2.2.2.2.2.2 (by decide)
    { dbFix with user_watchlist := [⟨11, 1, "MSFT", 6⟩] } ⟨1, "MSFT", 6⟩ (by rfl) 12 7
  exact ⟨h1, by decide, h2⟩

end StockInfo
